import Mathlib

/-!
Verification of the SeqXML streaming reader/writer (Bio/SeqIO/SeqXmlIO.py)
against its natural-language specification.

The Python module is embedded shallowly:

* Python values that can live in a record's annotations mapping are modelled
  by `PyVal` (scalars) over `PyPrim` (scalar list elements); every value shape
  the module manipulates is a scalar (`None`, `str`, `int`) or a list of
  scalars, which this two-level type covers.
* A Python `dict` is modelled as an association list preserving insertion
  order (`Annots`), as CPython dicts do.
* Emitted XML is modelled as a list of `XmlEvent`s; a writer step returns the
  events it flushed together with an optional raised error (`WOut`), because
  the writer streams output and may have flushed earlier tags before a later
  validation fails.
* Reader-side element handlers take a flat attribute dictionary and the
  partially built record, returning `Except PyError`.
-/

set_option autoImplicit false

namespace SeqXml

/-- Scalar Python values that occur as elements of list-valued annotations. -/
inductive PyPrim where
  | pnone
  | pstr (s : String)
  | pint (n : Int)
deriving DecidableEq, Repr

/-- Python values stored in a record's annotations mapping: `None`, `str`,
`int`, or a list of scalars.  These are the value shapes the SeqXML module
reads and writes. -/
inductive PyVal where
  | vnone
  | vstr (s : String)
  | vint (n : Int)
  | vlist (xs : List PyPrim)
deriving DecidableEq, Repr

/-- View a scalar list element as a value (used where the source unwraps a
one-element list: `local_ncbi_taxid = local_ncbi_taxid[0]`). -/
def PyPrim.toVal : PyPrim → PyVal
  | .pnone => .vnone
  | .pstr s => .vstr s
  | .pint n => .vint n

/-- View a value as a scalar list element (used where the source stores an
existing scalar into a fresh list; list values never reach this in the
modelled code paths because the source tests for lists first). -/
def PyVal.toPrim : PyVal → PyPrim
  | .vnone => .pnone
  | .vstr s => .pstr s
  | .vint n => .pint n
  | .vlist _ => .pnone

/-- Python truthiness of the modelled values. -/
def PyVal.truthy : PyVal → Bool
  | .vnone => false
  | .vstr s => !s.isEmpty
  | .vint n => n != 0
  | .vlist xs => !xs.isEmpty

/-- Python `isinstance(x, basestring)` on the modelled values. -/
def PyVal.isStr : PyVal → Bool
  | .vstr _ => true
  | _ => false

/-- Python `isinstance(x, (int, float, basestring))` on the modelled values. -/
def PyVal.isScalar : PyVal → Bool
  | .vstr _ => true
  | .vint _ => true
  | _ => false

/-- Python `str()` as applied by the writer to scalar property values. -/
def PyVal.pyStr : PyVal → String
  | .vnone => "None"
  | .vstr s => s
  | .vint n => toString n
  | .vlist _ => ""

/-- An annotations mapping: a Python dict modelled as an association list in
insertion order. -/
abbrev Annots := List (String × PyVal)

/-- Python `d[k]` / `k in d` on the modelled dict. -/
def lookupAnn : Annots → String → Option PyVal
  | [], _ => Option.none
  | (k, v) :: rest, key => if k = key then some v else lookupAnn rest key

/-- Python `d[k] = v` on the modelled dict: update in place if the key exists,
else append (CPython dicts keep insertion order). -/
def setAnn : Annots → String → PyVal → Annots
  | [], key, v => [(key, v)]
  | (k, w) :: rest, key, v =>
      if k = key then (k, v) :: rest else (k, w) :: setAnn rest key v

/-- One flushed piece of XML output, as produced via `XMLGenerator`. -/
inductive XmlEvent where
  | startTag (name : String) (attrs : List (String × PyVal))
  | endTag (name : String)
  | chars (s : String)
deriving DecidableEq, Repr

/-- The Python exceptions the module raises. -/
inductive PyError where
  | valueError (msg : String)
  | typeError (msg : String)
  | stopIteration
deriving DecidableEq, Repr

/-- Result of a writer step: the XML events flushed so far, plus the raised
error if one interrupted the step.  The writer streams, so events flushed
before a failure stay flushed. -/
structure WOut where
  events : List XmlEvent
  err : Option PyError
deriving DecidableEq, Repr

/-- Run writer step `a`, then (if it did not raise) step `b`. -/
def WOut.andThen (a b : WOut) : WOut :=
  match a.err with
  | some _ => a
  | Option.none => ⟨a.events ++ b.events, b.err⟩

/-- Alphabet classification of a record's sequence, after unwrapping to the
base alphabet (`Alphabet._get_base_alphabet`); `generic` stands for any
alphabet that is none of DNA/RNA/Protein. -/
inductive AlphabetTag where
  | dna
  | rna
  | protein
  | generic
deriving DecidableEq, Repr

/-- The slice of a `SeqRecord` the SeqXML writer reads.  `seqIsUnknown` models
the sequence being an `UnknownSeq` instance.  `id` and `description` are
modelled as strings (the module separately type-checks that they are;
those checks are vacuous here). -/
structure SeqRecord where
  id : String
  description : String
  seq : String
  seqIsUnknown : Bool
  alphabet : AlphabetTag
  dbxrefs : List String
  annotations : Annots
deriving DecidableEq, Repr

/-- Document-level configuration of `SeqXmlWriter` (`__init__` stores the
`source`, `source_version`, `species`, `ncbiTaxId` arguments; `None` is
`vnone`). -/
structure SeqXmlWriter where
  source : PyVal
  source_version : PyVal
  species : PyVal
  ncbiTaxId : PyVal
deriving DecidableEq, Repr

/-- Embedding of `SeqXmlWriter._write_species`.  Note two faithful quirks of
the source: (1) when the taxid annotation is a list with more than one
element, the source builds `ValueError(...)` but never raises it, so the
list value flows on unchanged; (2) the species element is only emitted when
the organism annotation is present and the resolved taxid is truthy. -/
def write_species (w : SeqXmlWriter) (anns : Annots) : WOut :=
  let localTaxid : PyVal :=
    match lookupAnn anns "ncbi_taxid" with
    | Option.none => .vnone
    | some v =>
        match v with
        | .vlist [x] => x.toVal
        | .vlist [] => .vnone
        | v' => v'
  match lookupAnn anns "organism" with
  | Option.none => ⟨[], Option.none⟩
  | some localOrg =>
      if localTaxid.truthy then
        if !localOrg.isStr then
          ⟨[], some (.typeError "organism should be of type string")⟩
        else if !localTaxid.isScalar then
          ⟨[], some (.typeError "ncbiTaxID should be of type string or int")⟩
        else if localOrg ≠ w.species ∨ localTaxid ≠ w.ncbiTaxId then
          ⟨[.startTag "species" [("name", localOrg), ("ncbiTaxID", localTaxid)],
            .endTag "species"], Option.none⟩
        else ⟨[], Option.none⟩
      else ⟨[], Option.none⟩

/-- Embedding of `SeqXmlWriter._write_description`.  The source normalizes the
reserved sentinel into the local `description`, but its final length test
reads `record.description`, not the normalized local, so under the outer
truthiness guard the element is always emitted (with the normalized, possibly
empty, text). -/
def write_description (description : String) : WOut :=
  if !description.isEmpty then
    let d := if description = "<unknown description>" then "" else description
    if description.length > 0 then
      ⟨[.startTag "description" [], .chars d, .endTag "description"], Option.none⟩
    else ⟨[], Option.none⟩
  else ⟨[], Option.none⟩

/-- Embedding of `SeqXmlWriter._write_seq`. -/
def write_seq (r : SeqRecord) : WOut :=
  if r.seqIsUnknown then
    ⟨[], some (.typeError "Sequence type is UnknownSeq but SeqXML requires sequence")⟩
  else if !(r.seq.length > 0) then
    ⟨[], some (.valueError "The sequence length should be greater than 0")⟩
  else
    match r.alphabet with
    | .rna => ⟨[.startTag "RNAseq" [], .chars r.seq, .endTag "RNAseq"], Option.none⟩
    | .dna => ⟨[.startTag "DNAseq" [], .chars r.seq, .endTag "DNAseq"], Option.none⟩
    | .protein => ⟨[.startTag "AAseq" [], .chars r.seq, .endTag "AAseq"], Option.none⟩
    | .generic => ⟨[], some (.valueError "Need a DNA, RNA or Protein alphabet")⟩

/-- Index of the first `:` in a string, `-1` when absent (Python `str.find`). -/
def colonIndex (s : String) : Int :=
  match s.toList.findIdx? (· = ':') with
  | Option.none => -1
  | some i => (i : Int)

/-- Python `s.split(":", 1)` for a string containing a colon. -/
def splitSourceId (s : String) : String × String :=
  match s.toList.findIdx? (· = ':') with
  | Option.none => (s, "")
  | some i => (String.mk (s.toList.take i), String.mk (s.toList.drop (i + 1)))

/-- Embedding of `SeqXmlWriter._write_dbxrefs`: one `DBRef` element per
cross-reference, each validated just before being flushed. -/
def write_dbxrefs : List String → WOut
  | [] => ⟨[], Option.none⟩
  | d :: rest =>
      if colonIndex d < 1 then
        ⟨[], some (.valueError "dbxrefs should be in the form ['source:id', 'source:id' ]")⟩
      else
        WOut.andThen
          ⟨[.startTag "DBRef"
              [("source", .vstr (splitSourceId d).1), ("id", .vstr (splitSourceId d).2)],
            .endTag "DBRef"], Option.none⟩
          (write_dbxrefs rest)

/-- Embedding of `SeqXmlWriter._write_properties`.  A faithful quirk of the
source: inside the list branch the loop tests `isinstance(value, ...)` — the
list itself rather than the element `v` — which is always false, so a
list-valued entry emits no tag at all. -/
def write_properties : Annots → List XmlEvent
  | [] => []
  | (key, value) :: rest =>
      let here : List XmlEvent :=
        if key = "organism" ∨ key = "ncbi_taxid" ∨ key = "source" then []
        else
          match value with
          | .vnone => [.startTag "property" [("name", .vstr key)], .endTag "property"]
          | .vlist xs =>
              (xs.map fun v =>
                if PyVal.isScalar (.vlist xs) then
                  [XmlEvent.startTag "property" [("name", .vstr key), ("value", v.toVal)],
                   XmlEvent.endTag "property"]
                else []).flatten
          | v =>
              if v.isScalar then
                [.startTag "property" [("name", .vstr key), ("value", .vstr v.pyStr)],
                 .endTag "property"]
              else []
      here ++ write_properties rest

/-- Python condition `"source" in record.annotations and
self.source != record.annotations["source"]` from `write_record`. -/
def needsEntrySource (w : SeqXmlWriter) (anns : Annots) : Bool :=
  match lookupAnn anns "source" with
  | some v => v != w.source
  | Option.none => false

/-- The `attrb` dictionary `write_record` builds for the `entry` start tag. -/
def entryAttrb (w : SeqXmlWriter) (r : SeqRecord) : List (String × PyVal) :=
  [("id", .vstr r.id)] ++
    (if needsEntrySource w r.annotations then
      [("source", (lookupAnn r.annotations "source").getD .vnone)]
    else [])

/-- Embedding of `SeqXmlWriter.write_record`: identifier validation, then the
entry start tag, then species, description, sequence, cross-references and
properties, then the entry end tag; a raised error stops the remaining
steps but keeps the already flushed events. -/
def write_record (w : SeqXmlWriter) (r : SeqRecord) : WOut :=
  if r.id = "" ∨ r.id = "<unknown id>" then
    ⟨[], some (.valueError "SeqXML requires identifier")⟩
  else if needsEntrySource w r.annotations ∧
      !((lookupAnn r.annotations "source").getD .vnone).isStr then
    ⟨[], some (.typeError "source should be of type string")⟩
  else
    WOut.andThen ⟨[.startTag "entry" (entryAttrb w r)], Option.none⟩ <|
    WOut.andThen (write_species w r.annotations) <|
    WOut.andThen (write_description r.description) <|
    WOut.andThen (write_seq r) <|
    WOut.andThen (write_dbxrefs r.dbxrefs) <|
    WOut.andThen ⟨write_properties r.annotations, Option.none⟩
      ⟨[.endTag "entry"], Option.none⟩

/-- The instance attributes of `SeqXmlIterator` that carry document metadata.
`__init__` assigns `None` to `source`, `source_version`, `version`,
`speciesName` and `ncbiTaxID`; `_read_header` assigns to `source`,
`sourceVersion`, `seqXMLversion`, `ncbiTaxID` and `speciesName`, so the
`sourceVersion` and `seqXMLversion` attributes are created dynamically on
first assignment and are distinct from the `source_version` and `version`
attributes the constructor initialized.  Each attribute is modelled as an
`Option String`, `none` meaning the attribute is absent or `None`. -/
structure SeqXmlIterator where
  source : Option String
  source_version : Option String
  version : Option String
  speciesName : Option String
  ncbiTaxID : Option String
  sourceVersion : Option String
  seqXMLversion : Option String
deriving DecidableEq, Repr

/-- Iterator metadata right after `__init__`'s field assignments. -/
def initIterator : SeqXmlIterator :=
  ⟨Option.none, Option.none, Option.none, Option.none, Option.none,
   Option.none, Option.none⟩

/-- One step of `_read_header`'s attribute loop: dispatch one root attribute
by name; unrecognized names fall through and change nothing. -/
def headerUpdate (st : SeqXmlIterator) (name value : String) : SeqXmlIterator :=
  if name = "source" then { st with source := some value }
  else if name = "sourceVersion" then { st with sourceVersion := some value }
  else if name = "seqXMLversion" then { st with seqXMLversion := some value }
  else if name = "ncbiTaxID" then { st with ncbiTaxID := some value }
  else if name = "speciesName" then { st with speciesName := some value }
  else st

/-- Embedding of the attribute loop in `SeqXmlIterator._read_header`, applied
to the root element's attribute list. -/
def readHeaderAttrs (st : SeqXmlIterator) : List (String × String) → SeqXmlIterator
  | [] => st
  | (n, v) :: rest => readHeaderAttrs (headerUpdate st n v) rest

/-- One event of the pulldom event stream the reader consumes. -/
inductive PullEvent where
  | startDocument
  | startElement (localName : String) (attrs : List (String × String)) (nsURI : Option String)
  | endElement (localName : String) (nsURI : Option String)
  | characters (s : String)
deriving DecidableEq, Repr

/-- The event stream pulldom produces for a zero-byte input.  On the first
pull the stream's buffer is empty, the underlying expat parser has never been
fed, so `close()` returns without parsing and the stream ends immediately:
no event at all is delivered (`next` raises `StopIteration`). -/
def emptyInputEvents : List PullEvent := []

/-- Embedding of `SeqXmlIterator.__init__` together with `_read_header`: pull
the first event (an empty stream becomes `ValueError("Empty file.")`), check
it is the document start, then pull the root element (a second exhaustion
propagates `StopIteration`), check its local name is `seqXML`, and fold its
attributes into the metadata.  Returns the populated metadata and the
remaining events. -/
def iteratorInit (events : List PullEvent) :
    Except PyError (SeqXmlIterator × List PullEvent) :=
  match events with
  | [] => Except.error (.valueError "Empty file.")
  | e :: rest =>
      match e with
      | .startDocument =>
          match rest with
          | [] => Except.error .stopIteration
          | e2 :: rest2 =>
              match e2 with
              | .startElement ln attrs _ =>
                  if ln = "seqXML" then
                    Except.ok (readHeaderAttrs initIterator attrs, rest2)
                  else Except.error (.valueError "Failed to find seqXML tag in file")
              | _ => Except.error (.valueError "Failed to find seqXML tag in file")
      | _ => Except.error (.valueError "Failed to find start of XML")

/-- The slice of the partially built record the attribute handlers touch.
A fresh record (`SeqRecord("", id="")`) has empty id, no annotations and no
cross-references. -/
structure ReadRecord where
  id : String
  annotations : Annots
  dbxrefs : List String
deriving DecidableEq, Repr

/-- The empty record allocated at an entry start boundary. -/
def freshRecord : ReadRecord := ⟨"", [], []⟩

/-- Attribute dictionary lookup (`attr_dict.get` / `in attr_dict`). -/
def attrGet : List (String × String) → String → Option String
  | [], _ => Option.none
  | (k, v) :: rest, key => if k = key then some v else attrGet rest key

/-- The value a property element contributes: its `value` attribute, or
Python `None` when absent. -/
def propertyValue (d : List (String × String)) : PyVal :=
  match attrGet d "value" with
  | Option.none => .vnone
  | some s => .vstr s

/-- Embedding of `SeqXmlIterator._attr_property`: mandatory `name`; a first
occurrence stores a scalar, a second wraps old and new value into a list, and
later occurrences append to the list. -/
def attr_property (d : List (String × String)) (r : ReadRecord) :
    Except PyError ReadRecord :=
  match attrGet d "name" with
  | Option.none => Except.error (.valueError "Malformed property element.")
  | some name =>
      match lookupAnn r.annotations name with
      | Option.none =>
          Except.ok { r with annotations := setAnn r.annotations name (propertyValue d) }
      | some (.vlist xs) =>
          let anns := setAnn r.annotations name (.vlist (xs ++ [(propertyValue d).toPrim]))
          Except.ok { r with annotations := anns }
      | some old =>
          let anns := setAnn r.annotations name (.vlist [old.toPrim, (propertyValue d).toPrim])
          Except.ok { r with annotations := anns }

/-- Embedding of `SeqXmlIterator._attr_species`: both `name` and `ncbiTaxID`
are mandatory; they become the `organism` and `ncbi_taxid` annotations. -/
def attr_species (d : List (String × String)) (r : ReadRecord) :
    Except PyError ReadRecord :=
  match attrGet d "name", attrGet d "ncbiTaxID" with
  | some nm, some taxid =>
      let anns := setAnn (setAnn r.annotations "organism" (.vstr nm)) "ncbi_taxid" (.vstr taxid)
      Except.ok { r with annotations := anns }
  | _, _ => Except.error (.valueError "Malformed species element!")

/-- Embedding of `SeqXmlIterator._attr_entry`: mandatory `id`; the per-entry
`source` attribute or else the document-level default becomes the `source`
annotation; the document-level taxid and species name, when set, seed the
`ncbi_taxid` and `organism` annotations. -/
def attr_entry (st : SeqXmlIterator) (d : List (String × String)) (r : ReadRecord) :
    Except PyError ReadRecord :=
  match attrGet d "id" with
  | Option.none => Except.error (.valueError "Malformed entry! Identifier is missing.")
  | some i =>
      let r1 : ReadRecord := { r with id := i }
      let r2 : ReadRecord :=
        match attrGet d "source" with
        | some s => { r1 with annotations := setAnn r1.annotations "source" (.vstr s) }
        | Option.none =>
            match st.source with
            | some s => { r1 with annotations := setAnn r1.annotations "source" (.vstr s) }
            | Option.none => r1
      let r3 : ReadRecord :=
        match st.ncbiTaxID with
        | some t => { r2 with annotations := setAnn r2.annotations "ncbi_taxid" (.vstr t) }
        | Option.none => r2
      let r4 : ReadRecord :=
        match st.speciesName with
        | some nm => { r3 with annotations := setAnn r3.annotations "organism" (.vstr nm) }
        | Option.none => r3
      Except.ok r4

/-- Embedding of `SeqXmlIterator._attr_DBRef`: both `source` and `id` are
mandatory; the `"source:id"` string is appended unless already present. -/
def attr_DBRef (d : List (String × String)) (r : ReadRecord) :
    Except PyError ReadRecord :=
  match attrGet d "source", attrGet d "id" with
  | some src, some i =>
      let x := src ++ ":" ++ i
      if x ∈ r.dbxrefs then Except.ok r
      else Except.ok { r with dbxrefs := r.dbxrefs ++ [x] }
  | _, _ => Except.error (.valueError "Invalid DB cross reference.")

/-- Attribute values as the XML serialization hands them back to a reader
(attribute values on the wire are strings). -/
def serializeAttrs (attrs : List (String × PyVal)) : List (String × String) :=
  attrs.map fun p => (p.1, p.2.pyStr)

/-- Whether an attribute dictionary carries a given attribute name. -/
def hasAttr (attrs : List (String × PyVal)) (k : String) : Bool :=
  attrs.any fun p => p.1 = k

/-- Value of the last occurrence of attribute `k` in an attribute list — what
a left-to-right dispatch loop leaves behind. -/
def lastAttr (k : String) : List (String × String) → Option String
  | [] => Option.none
  | (n, v) :: rest =>
      match lastAttr k rest with
      | some w => some w
      | Option.none => if n = k then some v else Option.none

/-- The second option when the first is `none`. -/
def overrideO (new old : Option String) : Option String :=
  match new with
  | some v => some v
  | Option.none => old

/-- Whether a value is a Python list. -/
def PyVal.isListVal : PyVal → Bool
  | .vlist _ => true
  | _ => false

theorem overrideO_none (o : Option String) : overrideO o Option.none = o := by
  cases o <;> rfl

theorem lookupAnn_setAnn_self (a : Annots) (k : String) (v : PyVal) :
    lookupAnn (setAnn a k v) k = some v := by
  induction a with
  | nil => simp [setAnn, lookupAnn]
  | cons p rest ih =>
      obtain ⟨k0, w⟩ := p
      by_cases h : k0 = k <;> simp [setAnn, lookupAnn, h, ih]

theorem lookupAnn_setAnn_ne (a : Annots) (k k' : String) (v : PyVal) (h : k' ≠ k) :
    lookupAnn (setAnn a k' v) k = lookupAnn a k := by
  induction a with
  | nil => simp [setAnn, lookupAnn, h]
  | cons p rest ih =>
      obtain ⟨k0, w⟩ := p
      by_cases h0 : k0 = k' <;> simp_all [setAnn, lookupAnn]

theorem headerUpdate_source (st : SeqXmlIterator) (n v : String) :
    (headerUpdate st n v).source = if n = "source" then some v else st.source := by
  unfold headerUpdate
  split_ifs <;> simp_all

theorem headerUpdate_sourceVersion (st : SeqXmlIterator) (n v : String) :
    (headerUpdate st n v).sourceVersion =
      if n = "sourceVersion" then some v else st.sourceVersion := by
  unfold headerUpdate
  split_ifs <;> simp_all

theorem headerUpdate_seqXMLversion (st : SeqXmlIterator) (n v : String) :
    (headerUpdate st n v).seqXMLversion =
      if n = "seqXMLversion" then some v else st.seqXMLversion := by
  unfold headerUpdate
  split_ifs <;> simp_all

theorem headerUpdate_ncbiTaxID (st : SeqXmlIterator) (n v : String) :
    (headerUpdate st n v).ncbiTaxID = if n = "ncbiTaxID" then some v else st.ncbiTaxID := by
  unfold headerUpdate
  split_ifs <;> simp_all

theorem headerUpdate_speciesName (st : SeqXmlIterator) (n v : String) :
    (headerUpdate st n v).speciesName =
      if n = "speciesName" then some v else st.speciesName := by
  unfold headerUpdate
  split_ifs <;> simp_all

theorem headerUpdate_source_version (st : SeqXmlIterator) (n v : String) :
    (headerUpdate st n v).source_version = st.source_version := by
  unfold headerUpdate
  split_ifs <;> rfl

theorem headerUpdate_version (st : SeqXmlIterator) (n v : String) :
    (headerUpdate st n v).version = st.version := by
  unfold headerUpdate
  split_ifs <;> rfl

theorem readHeaderAttrs_source (as : List (String × String)) (st : SeqXmlIterator) :
    (readHeaderAttrs st as).source = overrideO (lastAttr "source" as) st.source := by
  induction as generalizing st with
  | nil => rfl
  | cons p rest ih =>
      obtain ⟨n, v⟩ := p
      rw [readHeaderAttrs, ih, headerUpdate_source]
      rcases h : lastAttr "source" rest with _ | u <;>
        by_cases hn : n = "source" <;> simp [lastAttr, h, hn, overrideO]

theorem readHeaderAttrs_sourceVersion (as : List (String × String)) (st : SeqXmlIterator) :
    (readHeaderAttrs st as).sourceVersion =
      overrideO (lastAttr "sourceVersion" as) st.sourceVersion := by
  induction as generalizing st with
  | nil => rfl
  | cons p rest ih =>
      obtain ⟨n, v⟩ := p
      rw [readHeaderAttrs, ih, headerUpdate_sourceVersion]
      rcases h : lastAttr "sourceVersion" rest with _ | u <;>
        by_cases hn : n = "sourceVersion" <;> simp [lastAttr, h, hn, overrideO]

theorem readHeaderAttrs_seqXMLversion (as : List (String × String)) (st : SeqXmlIterator) :
    (readHeaderAttrs st as).seqXMLversion =
      overrideO (lastAttr "seqXMLversion" as) st.seqXMLversion := by
  induction as generalizing st with
  | nil => rfl
  | cons p rest ih =>
      obtain ⟨n, v⟩ := p
      rw [readHeaderAttrs, ih, headerUpdate_seqXMLversion]
      rcases h : lastAttr "seqXMLversion" rest with _ | u <;>
        by_cases hn : n = "seqXMLversion" <;> simp [lastAttr, h, hn, overrideO]

theorem readHeaderAttrs_ncbiTaxID (as : List (String × String)) (st : SeqXmlIterator) :
    (readHeaderAttrs st as).ncbiTaxID = overrideO (lastAttr "ncbiTaxID" as) st.ncbiTaxID := by
  induction as generalizing st with
  | nil => rfl
  | cons p rest ih =>
      obtain ⟨n, v⟩ := p
      rw [readHeaderAttrs, ih, headerUpdate_ncbiTaxID]
      rcases h : lastAttr "ncbiTaxID" rest with _ | u <;>
        by_cases hn : n = "ncbiTaxID" <;> simp [lastAttr, h, hn, overrideO]

theorem readHeaderAttrs_speciesName (as : List (String × String)) (st : SeqXmlIterator) :
    (readHeaderAttrs st as).speciesName =
      overrideO (lastAttr "speciesName" as) st.speciesName := by
  induction as generalizing st with
  | nil => rfl
  | cons p rest ih =>
      obtain ⟨n, v⟩ := p
      rw [readHeaderAttrs, ih, headerUpdate_speciesName]
      rcases h : lastAttr "speciesName" rest with _ | u <;>
        by_cases hn : n = "speciesName" <;> simp [lastAttr, h, hn, overrideO]

theorem readHeaderAttrs_source_version (as : List (String × String)) (st : SeqXmlIterator) :
    (readHeaderAttrs st as).source_version = st.source_version := by
  induction as generalizing st with
  | nil => rfl
  | cons p rest ih =>
      obtain ⟨n, v⟩ := p
      rw [readHeaderAttrs, ih, headerUpdate_source_version]

theorem readHeaderAttrs_version (as : List (String × String)) (st : SeqXmlIterator) :
    (readHeaderAttrs st as).version = st.version := by
  induction as generalizing st with
  | nil => rfl
  | cons p rest ih =>
      obtain ⟨n, v⟩ := p
      rw [readHeaderAttrs, ih, headerUpdate_version]

theorem propertyValue_not_list (d : List (String × String)) :
    (propertyValue d).isListVal = false := by
  unfold propertyValue
  cases attrGet d "value" <;> rfl

theorem attr_property_new (d : List (String × String)) (r : ReadRecord) (nm : String)
    (hn : attrGet d "name" = some nm) (h0 : lookupAnn r.annotations nm = Option.none) :
    attr_property d r =
      Except.ok { r with annotations := setAnn r.annotations nm (propertyValue d) } := by
  simp [attr_property, hn, h0]

theorem attr_property_promote (d : List (String × String)) (r : ReadRecord)
    (nm : String) (old : PyVal)
    (hn : attrGet d "name" = some nm)
    (h1 : lookupAnn r.annotations nm = some old)
    (hs : old.isListVal = false) :
    attr_property d r = Except.ok { r with annotations := setAnn r.annotations nm (.vlist [old.toPrim, (propertyValue d).toPrim]) } := by
  cases old <;> simp_all [attr_property, PyVal.isListVal]

theorem attr_property_append (d : List (String × String)) (r : ReadRecord)
    (nm : String) (xs : List PyPrim)
    (hn : attrGet d "name" = some nm)
    (h1 : lookupAnn r.annotations nm = some (.vlist xs)) :
    attr_property d r = Except.ok { r with annotations := setAnn r.annotations nm (.vlist (xs ++ [(propertyValue d).toPrim])) } := by
  simp [attr_property, hn, h1]

/-- C1, counterexample: the claim says an empty input stream yields an empty
record sequence with no error, but on an empty input the pull-event source
delivers no event and `SeqXmlIterator.__init__` raises an error, before any
record could be pulled. -/
theorem empty_input_errors : ∃ e, iteratorInit emptyInputEvents = Except.error e :=
  ⟨PyError.valueError "Empty file.", rfl⟩

/-- C1 (amended): for an empty input stream (zero bytes, hence zero pull
events), constructing the reader raises `ValueError("Empty file.")`; no
iterator state and no records are ever produced. -/
theorem empty_input_raises_empty_file :
    iteratorInit emptyInputEvents = Except.error (PyError.valueError "Empty file.") := rfl

/-- C2, code evaluation at the failing input: for a record whose `ncbi_taxid`
annotation is a list with more than one element, the consistency `ValueError`
the source builds is never raised.  Without an `organism` annotation the
species step silently succeeds and `write_record` emits the record without
error; with an `organism` annotation the step fails, but with the unrelated
isinstance `TypeError`, not the claimed consistency error. -/
theorem multi_taxid_not_rejected :
    write_species ⟨PyVal.vnone, PyVal.vnone, PyVal.vnone, PyVal.vnone⟩
        [("ncbi_taxid", PyVal.vlist [PyPrim.pstr "9606", PyPrim.pstr "10090"])]
      = ⟨[], Option.none⟩
    ∧ write_species ⟨PyVal.vnone, PyVal.vnone, PyVal.vnone, PyVal.vnone⟩
        [("organism", PyVal.vstr "Homo sapiens"),
         ("ncbi_taxid", PyVal.vlist [PyPrim.pstr "9606", PyPrim.pstr "10090"])]
      = ⟨[], some (PyError.typeError "ncbiTaxID should be of type string or int")⟩
    ∧ (write_record ⟨PyVal.vnone, PyVal.vnone, PyVal.vnone, PyVal.vnone⟩
        ⟨"A1", "", "ACGT", false, .dna, [],
         [("ncbi_taxid", PyVal.vlist [PyPrim.pstr "9606", PyPrim.pstr "10090"])]⟩).err
      = Option.none :=
  ⟨rfl, rfl, rfl⟩

/-- C3, code evaluation at the failing input: a list-valued non-reserved
annotation emits no property tag at all (the claim expects one tag per list
element), while a scalar annotation does emit its tag. -/
theorem list_property_emits_nothing :
    write_properties [("foo", PyVal.vlist [PyPrim.pstr "a", PyPrim.pstr "b"])] = []
    ∧ write_properties [("foo", PyVal.vstr "a")] =
        [XmlEvent.startTag "property" [("name", PyVal.vstr "foo"), ("value", PyVal.vstr "a")],
         XmlEvent.endTag "property"] :=
  ⟨rfl, rfl⟩

/-- C4, code evaluation at the failing input: a record whose description is
the reserved unknown-description sentinel still produces a description
element (with empty character data), where the claim says no description
element is emitted. -/
theorem sentinel_description_still_emitted :
    write_description "<unknown description>" =
      ⟨[XmlEvent.startTag "description" [], XmlEvent.chars "",
        XmlEvent.endTag "description"], Option.none⟩ := rfl

/-- C5, counterexample: reading a root element carrying `sourceVersion` and
`seqXMLversion` attributes leaves the `source_version` and `version` fields
initialized by the constructor unset; the values are stored in separately
created `sourceVersion` and `seqXMLversion` attributes instead. -/
theorem header_sourceVersion_missed :
    (readHeaderAttrs initIterator
        [("sourceVersion", "2.1"), ("seqXMLversion", "0.4")]).source_version = Option.none
    ∧ (readHeaderAttrs initIterator
        [("sourceVersion", "2.1"), ("seqXMLversion", "0.4")]).version = Option.none
    ∧ (readHeaderAttrs initIterator
        [("sourceVersion", "2.1"), ("seqXMLversion", "0.4")]).sourceVersion = some "2.1"
    ∧ (readHeaderAttrs initIterator
        [("sourceVersion", "2.1"), ("seqXMLversion", "0.4")]).seqXMLversion = some "0.4" := by
  refine ⟨rfl, rfl, rfl, rfl⟩

/-- C5 (amended): processing the root element's attributes captures `source`,
`ncbiTaxID` and `speciesName` into the iterator fields of those names, and
captures `sourceVersion` and `seqXMLversion` into dynamically created
attributes of those exact names — while the `source_version` and `version`
fields the constructor initializes always remain unset; unrecognized
attributes are ignored, and an absent attribute leaves its field unset. -/
theorem header_metadata_capture (as : List (String × String)) :
    (readHeaderAttrs initIterator as).source = lastAttr "source" as
    ∧ (readHeaderAttrs initIterator as).sourceVersion = lastAttr "sourceVersion" as
    ∧ (readHeaderAttrs initIterator as).seqXMLversion = lastAttr "seqXMLversion" as
    ∧ (readHeaderAttrs initIterator as).ncbiTaxID = lastAttr "ncbiTaxID" as
    ∧ (readHeaderAttrs initIterator as).speciesName = lastAttr "speciesName" as
    ∧ (readHeaderAttrs initIterator as).source_version = Option.none
    ∧ (readHeaderAttrs initIterator as).version = Option.none := by
  refine ⟨?_, ?_, ?_, ?_, ?_, ?_, ?_⟩
  · simp [readHeaderAttrs_source, initIterator, overrideO_none]
  · simp [readHeaderAttrs_sourceVersion, initIterator, overrideO_none]
  · simp [readHeaderAttrs_seqXMLversion, initIterator, overrideO_none]
  · simp [readHeaderAttrs_ncbiTaxID, initIterator, overrideO_none]
  · simp [readHeaderAttrs_speciesName, initIterator, overrideO_none]
  · simp [readHeaderAttrs_source_version, initIterator]
  · simp [readHeaderAttrs_version, initIterator]

/-- C6: within one entry, the first property occurrence of a name stores its
value (a missing `value` attribute is stored as none) as a scalar
annotation, a second occurrence of the same name replaces the scalar with
the two-element list of both values in encounter order, and a third
occurrence appends to that list. -/
theorem property_occurrence_promotion
    (r : ReadRecord) (nm : String) (d1 d2 d3 : List (String × String))
    (h0 : lookupAnn r.annotations nm = Option.none)
    (h1 : attrGet d1 "name" = some nm)
    (h2 : attrGet d2 "name" = some nm)
    (h3 : attrGet d3 "name" = some nm) :
    ∃ r1 r2 r3 : ReadRecord,
      attr_property d1 r = Except.ok r1
      ∧ lookupAnn r1.annotations nm = some (propertyValue d1)
      ∧ attr_property d2 r1 = Except.ok r2
      ∧ lookupAnn r2.annotations nm =
          some (.vlist [(propertyValue d1).toPrim, (propertyValue d2).toPrim])
      ∧ attr_property d3 r2 = Except.ok r3
      ∧ lookupAnn r3.annotations nm =
          some (.vlist [(propertyValue d1).toPrim, (propertyValue d2).toPrim,
            (propertyValue d3).toPrim]) := by
  have e1 := attr_property_new d1 r nm h1 h0
  have l1 : lookupAnn ({ r with annotations := setAnn r.annotations nm (propertyValue d1) } : ReadRecord).annotations nm = some (propertyValue d1) := lookupAnn_setAnn_self _ _ _
  have e2 := attr_property_promote d2 { r with annotations := setAnn r.annotations nm (propertyValue d1) } nm (propertyValue d1) h2 l1 (propertyValue_not_list d1)
  have l2 : lookupAnn ({ r with annotations := setAnn (setAnn r.annotations nm (propertyValue d1)) nm (.vlist [(propertyValue d1).toPrim, (propertyValue d2).toPrim]) } : ReadRecord).annotations nm = some (PyVal.vlist [(propertyValue d1).toPrim, (propertyValue d2).toPrim]) := lookupAnn_setAnn_self _ _ _
  have e3 := attr_property_append d3 _ nm [(propertyValue d1).toPrim, (propertyValue d2).toPrim] h3 l2
  exact ⟨_, _, _, e1, l1, e2, l2, e3, lookupAnn_setAnn_self _ _ _⟩

/-- C6 witness: the promotion sequence at a concrete record and concrete
property dictionaries. -/
theorem property_occurrence_promotion_witness :
    ∃ r1 r2 r3 : ReadRecord,
      attr_property [("name", "prop")] freshRecord = Except.ok r1
      ∧ lookupAnn r1.annotations "prop" = some (propertyValue [("name", "prop")])
      ∧ attr_property [("name", "prop"), ("value", "x")] r1 = Except.ok r2
      ∧ lookupAnn r2.annotations "prop" =
          some (.vlist [(propertyValue [("name", "prop")]).toPrim,
            (propertyValue [("name", "prop"), ("value", "x")]).toPrim])
      ∧ attr_property [("name", "prop"), ("value", "y")] r2 = Except.ok r3
      ∧ lookupAnn r3.annotations "prop" =
          some (.vlist [(propertyValue [("name", "prop")]).toPrim,
            (propertyValue [("name", "prop"), ("value", "x")]).toPrim,
            (propertyValue [("name", "prop"), ("value", "y")]).toPrim]) :=
  property_occurrence_promotion freshRecord "prop" [("name", "prop")]
    [("name", "prop"), ("value", "x")] [("name", "prop"), ("value", "y")]
    rfl rfl rfl rfl

/-- C7: a record whose identifier is empty (the falsy case of a missing
identifier) or equal to the reserved unknown-identifier sentinel makes
`write_record` raise the validation error before emitting any event: the
result carries no entry start tag nor any other output. -/
theorem write_record_requires_identifier (w : SeqXmlWriter) (r : SeqRecord)
    (h : r.id = "" ∨ r.id = "<unknown id>") :
    write_record w r = ⟨[], some (PyError.valueError "SeqXML requires identifier")⟩ := by
  unfold write_record
  rcases h with h | h <;> simp [h]

/-- C7 witness: the sentinel-identifier record is rejected with no output. -/
theorem write_record_requires_identifier_witness :
    write_record ⟨PyVal.vnone, PyVal.vnone, PyVal.vnone, PyVal.vnone⟩
        ⟨"<unknown id>", "", "ACGT", false, .dna, [], []⟩
      = ⟨[], some (PyError.valueError "SeqXML requires identifier")⟩ :=
  write_record_requires_identifier _ _ (Or.inr rfl)

/-- C8: each missing mandatory attribute makes the corresponding handler
raise the format error when its start boundary is dispatched: `entry`
without `id`, `species` without `name` or without `ncbiTaxID`, `property`
without `name`, and `DBRef` without `source` or without `id`. -/
theorem missing_mandatory_attribute_errors
    (st : SeqXmlIterator) (r : ReadRecord) (d : List (String × String)) :
    (attrGet d "id" = Option.none →
      attr_entry st d r =
        Except.error (PyError.valueError "Malformed entry! Identifier is missing."))
    ∧ (attrGet d "name" = Option.none →
      attr_species d r = Except.error (PyError.valueError "Malformed species element!"))
    ∧ (attrGet d "ncbiTaxID" = Option.none →
      attr_species d r = Except.error (PyError.valueError "Malformed species element!"))
    ∧ (attrGet d "name" = Option.none →
      attr_property d r = Except.error (PyError.valueError "Malformed property element."))
    ∧ (attrGet d "source" = Option.none →
      attr_DBRef d r = Except.error (PyError.valueError "Invalid DB cross reference."))
    ∧ (attrGet d "id" = Option.none →
      attr_DBRef d r = Except.error (PyError.valueError "Invalid DB cross reference.")) := by
  refine ⟨?_, ?_, ?_, ?_, ?_, ?_⟩ <;> intro h
  · simp [attr_entry, h]
  · cases hy : attrGet d "ncbiTaxID" <;> simp [attr_species, h, hy]
  · cases hx : attrGet d "name" <;> simp [attr_species, h, hx]
  · simp [attr_property, h]
  · cases hy : attrGet d "id" <;> simp [attr_DBRef, h, hy]
  · cases hx : attrGet d "source" <;> simp [attr_DBRef, h, hx]

/-- C8 witness: all six missing-attribute errors at the empty attribute
dictionary. -/
theorem missing_mandatory_attribute_errors_witness :
    attr_entry initIterator [] freshRecord =
      Except.error (PyError.valueError "Malformed entry! Identifier is missing.")
    ∧ attr_species [] freshRecord =
      Except.error (PyError.valueError "Malformed species element!")
    ∧ attr_property [] freshRecord =
      Except.error (PyError.valueError "Malformed property element.")
    ∧ attr_DBRef [] freshRecord =
      Except.error (PyError.valueError "Invalid DB cross reference.") :=
  ⟨(missing_mandatory_attribute_errors initIterator freshRecord []).1 rfl,
   (missing_mandatory_attribute_errors initIterator freshRecord []).2.1 rfl,
   (missing_mandatory_attribute_errors initIterator freshRecord []).2.2.2.1 rfl,
   (missing_mandatory_attribute_errors initIterator freshRecord []).2.2.2.2.1 rfl⟩

/-- C9: when a record's source annotation equals the writer's document-level
source default, `write_record` emits the entry start tag without a per-entry
source attribute; reading that tag back under a reader whose document-level
default is the same value resolves the record's source annotation to that
default; and the per-entry source attribute is present exactly when the
record's source annotation is present and differs from the document
default. -/
theorem entry_source_default_suppression
    (w : SeqXmlWriter) (r : SeqRecord) (s : String) (st : SeqXmlIterator)
    (hw : w.source = PyVal.vstr s)
    (hst : st.source = some s)
    (hr : lookupAnn r.annotations "source" = some (PyVal.vstr s))
    (hid1 : ¬ r.id = "") (hid2 : ¬ r.id = "<unknown id>") :
    (write_record w r).events.head? =
      some (XmlEvent.startTag "entry" [("id", PyVal.vstr r.id)])
    ∧ (∃ rec : ReadRecord,
        attr_entry st (serializeAttrs (entryAttrb w r)) freshRecord = Except.ok rec
        ∧ lookupAnn rec.annotations "source" = some (PyVal.vstr s))
    ∧ ∀ r' : SeqRecord,
        hasAttr (entryAttrb w r') "source" = true
          ↔ ∃ v, lookupAnn r'.annotations "source" = some v ∧ v ≠ w.source := by
  have hneed : needsEntrySource w r.annotations = false := by
    simp [needsEntrySource, hr, hw]
  have hattrb : entryAttrb w r = [("id", PyVal.vstr r.id)] := by
    simp [entryAttrb, hneed]
  refine ⟨?_, ?_, ?_⟩
  · unfold write_record
    simp [hid1, hid2, hneed, hattrb, WOut.andThen]
  · have hser : serializeAttrs (entryAttrb w r) = [("id", r.id)] := by
      simp [hattrb, serializeAttrs, PyVal.pyStr]
    rw [hser]
    rcases hT : st.ncbiTaxID with _ | t <;> rcases hS : st.speciesName with _ | nm
    · exact ⟨⟨r.id, [("source", PyVal.vstr s)], []⟩,
        by simp [attr_entry, attrGet, freshRecord, setAnn, hst, hT, hS],
        by simp [lookupAnn]⟩
    · exact ⟨⟨r.id, [("source", PyVal.vstr s), ("organism", PyVal.vstr nm)], []⟩,
        by simp [attr_entry, attrGet, freshRecord, setAnn, hst, hT, hS],
        by simp [lookupAnn]⟩
    · exact ⟨⟨r.id, [("source", PyVal.vstr s), ("ncbi_taxid", PyVal.vstr t)], []⟩,
        by simp [attr_entry, attrGet, freshRecord, setAnn, hst, hT, hS],
        by simp [lookupAnn]⟩
    · exact ⟨⟨r.id,
          [("source", PyVal.vstr s), ("ncbi_taxid", PyVal.vstr t), ("organism", PyVal.vstr nm)],
          []⟩,
        by simp [attr_entry, attrGet, freshRecord, setAnn, hst, hT, hS],
        by simp [lookupAnn]⟩
  · intro r'
    rcases hl : lookupAnn r'.annotations "source" with _ | v
    · simp [hasAttr, entryAttrb, needsEntrySource, hl]
    · by_cases hv : v = w.source
      · simp [hasAttr, entryAttrb, needsEntrySource, hl, hv]
      · simp [hasAttr, entryAttrb, needsEntrySource, hl, hv]

/-- C9 witness: a concrete writer, record and reader state sharing the source
default "db". -/
theorem entry_source_default_suppression_witness :
    (write_record ⟨PyVal.vstr "db", PyVal.vnone, PyVal.vnone, PyVal.vnone⟩
        ⟨"A1", "", "ACGT", false, .dna, [], [("source", PyVal.vstr "db")]⟩).events.head? =
      some (XmlEvent.startTag "entry" [("id", PyVal.vstr "A1")])
    ∧ (∃ rec : ReadRecord,
        attr_entry { initIterator with source := some "db" }
            (serializeAttrs (entryAttrb ⟨PyVal.vstr "db", PyVal.vnone, PyVal.vnone, PyVal.vnone⟩
              ⟨"A1", "", "ACGT", false, .dna, [], [("source", PyVal.vstr "db")]⟩))
            freshRecord = Except.ok rec
        ∧ lookupAnn rec.annotations "source" = some (PyVal.vstr "db"))
    ∧ ∀ r' : SeqRecord,
        hasAttr (entryAttrb ⟨PyVal.vstr "db", PyVal.vnone, PyVal.vnone, PyVal.vnone⟩ r')
            "source" = true
          ↔ ∃ v, lookupAnn r'.annotations "source" = some v ∧ v ≠ PyVal.vstr "db" :=
  entry_source_default_suppression ⟨PyVal.vstr "db", PyVal.vnone, PyVal.vnone, PyVal.vnone⟩
    ⟨"A1", "", "ACGT", false, .dna, [], [("source", PyVal.vstr "db")]⟩ "db"
    { initIterator with source := some "db" } rfl rfl (by decide) (by decide) (by decide)

/-- C10: a record whose organism annotation is present but whose ncbi_taxid
annotation resolves to a falsy value (absent, the integer 0, the empty
string, or the empty list) makes `_write_species` silently emit no species
element and raise no error, for every writer configuration — in particular
even when the organism differs from the writer's document-level species
default. -/
theorem species_skipped_on_falsy_taxid
    (w : SeqXmlWriter) (anns : Annots) (org : PyVal)
    (horg : lookupAnn anns "organism" = some org)
    (htax : lookupAnn anns "ncbi_taxid" = Option.none
      ∨ lookupAnn anns "ncbi_taxid" = some (PyVal.vint 0)
      ∨ lookupAnn anns "ncbi_taxid" = some (PyVal.vstr "")
      ∨ lookupAnn anns "ncbi_taxid" = some (PyVal.vlist [])) :
    write_species w anns = ⟨[], Option.none⟩ := by
  rcases htax with h | h | h | h <;>
    simp [write_species, h, horg, PyVal.truthy, String.isEmpty]

/-- C10 witness: organism present and differing from the document default,
taxid the integer 0: the species step emits nothing and raises nothing. -/
theorem species_skipped_on_falsy_taxid_witness :
    write_species ⟨PyVal.vnone, PyVal.vnone, PyVal.vstr "Mus musculus", PyVal.vnone⟩
        [("organism", PyVal.vstr "Homo sapiens"), ("ncbi_taxid", PyVal.vint 0)]
      = ⟨[], Option.none⟩ :=
  species_skipped_on_falsy_taxid _ _ (PyVal.vstr "Homo sapiens") (by decide)
    (Or.inr (Or.inl (by decide)))

end SeqXml
